import Mathlib

/-!
# Verification of the medical triage core

A shallow embedding of the entity-merge algorithm (`backend/ner.py`:
`AdvancedMedicalNER.merge_entities`, `entities_overlap`, `extract_entities`)
and of the ESI triage classifier (`backend/triageSystem.py`:
`ESITriageSystem.assess_esi_level`, `check_esi_level_1` .. `check_esi_level_4`,
`check_critical_vitals`, `create_esi_response`), together with proofs about
the embedded definitions.

Conventions of the embedding:
* Python strings are modelled as `String` / `List Char`; the transcripts of
  interest are ASCII, and `Char.toLower` / `Char.isDigit` model Python's
  `str.lower` / `\d` on that fragment.
* Python floats (entity confidences) are modelled as rationals; the source
  threshold literal `0.7` becomes `mkRat 7 10`.
* The Python regular expressions in `check_critical_vitals` and
  `check_esi_level_2` are fixed patterns; they are embedded by direct
  scanners implementing Python `re` semantics for those patterns:
  leftmost match, alternatives tried in order, non-overlapping `finditer`
  matches resuming at the end of the previous match, lazy `.*?` (which does
  not cross a newline), greedy `\d+` and `\s*`.
* The scanners recurse with an explicit fuel argument initialised to the
  length of the scanned list; every step consumes at least one character,
  so the fuel never runs out before the scan is complete.
-/

/-! ## Basic string helpers -/

/-- Python `str.lower` restricted to ASCII text. -/
def pyLower (l : List Char) : List Char := l.map Char.toLower

/-- `isPrefixL p l` holds when `p` is a prefix of `l` (Boolean version used by
the scanners for regex literal alternatives). -/
def isPrefixL : List Char → List Char → Bool
  | [], _ => true
  | _ :: _, [] => false
  | p :: ps, c :: cs => p == c && isPrefixL ps cs

/-- Python's substring test `pat in s` (matches at some position). -/
def containsL (pat : List Char) : List Char → Bool
  | [] => isPrefixL pat []
  | c :: cs => isPrefixL pat (c :: cs) || containsL pat cs

/-- `pat in s` for a `String` pattern against an already lowercased
character list. -/
def containsS (pat : String) (l : List Char) : Bool := containsL pat.toList l

/-- The maximal digit run at the head of the list together with the
remainder (Python's greedy `\d+` at a fixed position). -/
def digitRun : List Char → List Char × List Char
  | [] => ([], [])
  | c :: cs =>
    if c.isDigit then
      let p := digitRun cs
      (c :: p.1, p.2)
    else ([], c :: cs)

/-- Numeric value of a digit string, as Python `int` computes it. -/
def digitsVal (l : List Char) : Nat := l.foldl (fun a c => 10 * a + (c.toNat - 48)) 0

/-- Python whitespace class `\s` (ASCII part), also the class stripped by
`str.strip()`. -/
def isPyWs (c : Char) : Bool :=
  c = ' ' || c = '\t' || c = '\n' || c = '\r' || c = '\x0B' || c = '\x0C'

/-- Skip the maximal whitespace run (greedy `\s*`). -/
def wsRun : List Char → List Char
  | [] => []
  | c :: cs => if isPyWs c then wsRun cs else c :: cs

/-! ## The vital-sign regular expressions of `check_critical_vitals`

`bp_pattern = blood pressure.*?(\d+)/(\d+)|bp.*?(\d+)/(\d+)|(\d+)/(\d+)`
`hr_pattern = heart rate.*?(\d+)|pulse.*?(\d+)|hr.*?(\d+)`
`o2_pattern = oxygen saturation.*?(\d+)|o2 sat.*?(\d+)|spo2.*?(\d+)`
-/

/-- `(\d+)/(\d+)` at a fixed position: a nonempty digit run, a slash, a
nonempty digit run.  Returns (first group, second group, remainder after the
match).  Shortening the first greedy `\d+` can never turn a failure into a
success (the following character would still be a digit, not `/`), so the
greedy runs are exact. -/
def matchDD (l : List Char) : Option (List Char × List Char × List Char) :=
  let p := digitRun l
  if p.1.isEmpty then none
  else
    match p.2 with
    | '/' :: r2 =>
      let q := digitRun r2
      if q.1.isEmpty then none else some (p.1, q.1, q.2)
    | _ => none

/-- `.*?(\d+)/(\d+)` from the current position: lazily scan forward for the
first position where `(\d+)/(\d+)` matches; `.` does not match a newline, so
the scan fails if it would have to cross one. -/
def lazyDD : List Char → Option (List Char × List Char × List Char)
  | [] => none
  | c :: cs =>
    match matchDD (c :: cs) with
    | some r => some r
    | none => if c = '\n' then none else lazyDD cs

/-- `.*?(\d+)` from the current position: lazily scan (not crossing a
newline) for the first digit, then take the maximal digit run. -/
def lazyNum : List Char → Option (List Char × List Char)
  | [] => none
  | c :: cs =>
    if c.isDigit then
      let p := digitRun (c :: cs)
      some (p.1, p.2)
    else if c = '\n' then none
    else lazyNum cs

/-- One attempt of `bp_pattern` at a fixed position, alternatives in the
pattern's order.  The three alternatives start with mutually exclusive
literals ("blood pressure", "bp", a digit), and a failed alternative falls
through to the next.  Returns (systolic group of whichever alternative
matched — group 1, 3 or 5, the first non-`None` entry of `groups[:5:2]` —
and the remainder after the whole match). -/
def bpMatchAt (l : List Char) : Option (List Char × List Char) :=
  match (if isPrefixL "blood pressure".toList l then lazyDD (l.drop 14) else none) with
  | some r => some (r.1, r.2.2)
  | none =>
    match (if isPrefixL "bp".toList l then lazyDD (l.drop 2) else none) with
    | some r => some (r.1, r.2.2)
    | none =>
      match matchDD l with
      | some r => some (r.1, r.2.2)
      | none => none

/-- Critical systolic blood-pressure threshold
(`critical_vitals['systolic_bp_low']`). -/
def systolic_bp_low : Nat := 70

/-- Critical heart-rate thresholds (`critical_vitals`). -/
def heart_rate_low : Nat := 40

def heart_rate_high : Nat := 180

/-- Critical oxygen-saturation threshold
(`critical_vitals['oxygen_saturation_low']`). -/
def oxygen_saturation_low : Nat := 85

/-- `re.finditer(bp_pattern, transcript)` with the source's per-match test
`systolic and systolic < 70` (Python truthiness: a parsed value of `0` is
falsy and ignored).  On no match at a position the scan advances one
character; after a match it resumes at the match end. -/
def bpScanAux : Nat → List Char → Bool
  | 0, _ => false
  | _ + 1, [] => false
  | fuel + 1, c :: cs =>
    match bpMatchAt (c :: cs) with
    | some r =>
      if 0 < digitsVal r.1 ∧ digitsVal r.1 < systolic_bp_low then true
      else bpScanAux fuel r.2
    | none => bpScanAux fuel cs

def bpScan (l : List Char) : Bool := bpScanAux l.length l

/-- One attempt of `hr_pattern` at a fixed position.  The result's first
component is the value of capture group 1 — set only when the
"heart rate" alternative matched.  The source reads `match.group(1)`
unconditionally, so for the "pulse" and "hr" alternatives `int(None)`
raises and the `except: continue` skips the match (modelled as `none`). -/
def hrMatchAt (l : List Char) : Option (Option Nat × List Char) :=
  match (if isPrefixL "heart rate".toList l then lazyNum (l.drop 10) else none) with
  | some r => some (some (digitsVal r.1), r.2)
  | none =>
    match (if isPrefixL "pulse".toList l then lazyNum (l.drop 5) else none) with
    | some r => some (none, r.2)
    | none =>
      match (if isPrefixL "hr".toList l then lazyNum (l.drop 2) else none) with
      | some r => some (none, r.2)
      | none => none

def hrScanAux : Nat → List Char → Bool
  | 0, _ => false
  | _ + 1, [] => false
  | fuel + 1, c :: cs =>
    match hrMatchAt (c :: cs) with
    | some (some v, rest) =>
      if v < heart_rate_low ∨ heart_rate_high < v then true else hrScanAux fuel rest
    | some (none, rest) => hrScanAux fuel rest
    | none => hrScanAux fuel cs

def hrScan (l : List Char) : Bool := hrScanAux l.length l

/-- One attempt of `o2_pattern` at a fixed position; as with `hrMatchAt`,
only capture group 1 ("oxygen saturation" alternative) is ever read by the
source, the "o2 sat" and "spo2" alternatives are skipped via the
`except: continue`. -/
def o2MatchAt (l : List Char) : Option (Option Nat × List Char) :=
  match (if isPrefixL "oxygen saturation".toList l then lazyNum (l.drop 17) else none) with
  | some r => some (some (digitsVal r.1), r.2)
  | none =>
    match (if isPrefixL "o2 sat".toList l then lazyNum (l.drop 6) else none) with
    | some r => some (none, r.2)
    | none =>
      match (if isPrefixL "spo2".toList l then lazyNum (l.drop 4) else none) with
      | some r => some (none, r.2)
      | none => none

def o2ScanAux : Nat → List Char → Bool
  | 0, _ => false
  | _ + 1, [] => false
  | fuel + 1, c :: cs =>
    match o2MatchAt (c :: cs) with
    | some (some v, rest) =>
      if v < oxygen_saturation_low then true else o2ScanAux fuel rest
    | some (none, rest) => o2ScanAux fuel rest
    | none => o2ScanAux fuel cs

def o2Scan (l : List Char) : Bool := o2ScanAux l.length l

/-- `ESITriageSystem.check_critical_vitals`: the three pattern scans in the
source's order; an early `return True` is a Boolean disjunction. -/
def check_critical_vitals (transcript : List Char) : Bool :=
  bpScan transcript || hrScan transcript || o2Scan transcript

/-! ## The age regular expression of `check_esi_level_2`

`age_pattern = (\d+)\s*(?:year|yr)s?\s*old|age\s*(?:is\s*)?(\d+)`, used with
`re.search` (first match only). -/

/-- Alternative 1, `(\d+)\s*(?:year|yr)s?\s*old`, at a fixed position.
`year` is tried before `yr` (their continuations cannot both apply), and for
`s?` the branch without `s` can only fail when the next character is `s`,
so the greedy option is exact. -/
def ageAlt1 (l : List Char) : Option Nat :=
  let p := digitRun l
  if p.1.isEmpty then none
  else
    let r2 := wsRun p.2
    match (if isPrefixL "year".toList r2 then some (r2.drop 4)
           else if isPrefixL "yr".toList r2 then some (r2.drop 2)
           else none) with
    | none => none
    | some r3 =>
      let r4 := match r3 with
                | 's' :: rest => rest
                | other => other
      if isPrefixL "old".toList (wsRun r4) then some (digitsVal p.1) else none

/-- Alternative 2, `age\s*(?:is\s*)?(\d+)`, at a fixed position.  When the
optional `is` is present but no digits follow, the branch without `is` would
have to read a digit at the `i`, so it fails as well. -/
def ageAlt2 (l : List Char) : Option Nat :=
  if isPrefixL "age".toList l then
    let r1 := wsRun (l.drop 3)
    let r2 := if isPrefixL "is".toList r1 then wsRun (r1.drop 2) else r1
    let p := digitRun r2
    if p.1.isEmpty then none else some (digitsVal p.1)
  else none

/-- `re.search(age_pattern, transcript_lower)` followed by
`int(match.group(1) or match.group(2))`: the first position (alternative 1
before alternative 2) with a match, its captured number. -/
def searchAge : List Char → Option Nat
  | [] => none
  | c :: cs =>
    match ageAlt1 (c :: cs) with
    | some v => some v
    | none =>
      match ageAlt2 (c :: cs) with
      | some v => some v
      | none => searchAge cs

/-! ## Data model: entities and the per-category collection -/

/-- One extracted entity (`{text, label, confidence, start, end, source}`
dictionaries of `ner.py`).  The source field `end` is called `stop` here
because `end` is a reserved word in Lean. -/
structure Entity where
  text : String
  label : String
  confidence : ℚ
  start : Nat
  stop : Nat
  source : String
deriving DecidableEq

/-- `AdvancedMedicalNER.entities_overlap`: two spans overlap unless they are
disjoint on the half-open interval test
`not (e1.end <= e2.start or e2.end <= e1.start)`. -/
def entities_overlap (e1 e2 : Entity) : Bool :=
  !(decide (e1.stop ≤ e2.start) || decide (e2.stop ≤ e1.start))

/-- The per-category entity dictionary: the literal
`{'SYMPTOM': [], 'MEDICATION': [], 'DISEASE': [], 'PROCEDURE': [],
'ANATOMY': []}` of `merge_entities` (and of `extract_entities` for empty
input).  The key set is fixed by this literal; a Python dict key absent
from it behaves for the classifier like an empty sequence. -/
structure EntityCollection where
  SYMPTOM : List Entity
  MEDICATION : List Entity
  DISEASE : List Entity
  PROCEDURE : List Entity
  ANATOMY : List Entity
deriving DecidableEq

def emptyCollection : EntityCollection := ⟨[], [], [], [], []⟩

/-- `entities[label]` for the five fixed keys, `[]` for any other label
(used only where the source guards with `label in entities`). -/
def getBucket (col : EntityCollection) (label : String) : List Entity :=
  if label = "SYMPTOM" then col.SYMPTOM
  else if label = "MEDICATION" then col.MEDICATION
  else if label = "DISEASE" then col.DISEASE
  else if label = "PROCEDURE" then col.PROCEDURE
  else if label = "ANATOMY" then col.ANATOMY
  else []

/-- The source's `if label in entities: entities[label].append(entity)`:
append to the bucket named by the entity's label, silently dropping any
other label (e.g. `OTHER`). -/
def addToBucket (col : EntityCollection) (e : Entity) : EntityCollection :=
  if e.label = "SYMPTOM" then { col with SYMPTOM := col.SYMPTOM ++ [e] }
  else if e.label = "MEDICATION" then { col with MEDICATION := col.MEDICATION ++ [e] }
  else if e.label = "DISEASE" then { col with DISEASE := col.DISEASE ++ [e] }
  else if e.label = "PROCEDURE" then { col with PROCEDURE := col.PROCEDURE ++ [e] }
  else if e.label = "ANATOMY" then { col with ANATOMY := col.ANATOMY ++ [e] }
  else col

/-- The overlap test of the merge's rule pass: `entities_overlap(rule, x)`
for some `x` in some category bucket (the source iterates the five buckets
with an early break; the result is this disjunction). -/
def overlapsAnyBucket (col : EntityCollection) (e : Entity) : Bool :=
  col.SYMPTOM.any (fun x => entities_overlap e x)
  || col.MEDICATION.any (fun x => entities_overlap e x)
  || col.DISEASE.any (fun x => entities_overlap e x)
  || col.PROCEDURE.any (fun x => entities_overlap e x)
  || col.ANATOMY.any (fun x => entities_overlap e x)

/-- The source's confidence threshold literal `0.7`. -/
def highConfCut : ℚ := mkRat 7 10

/-- `AdvancedMedicalNER.merge_entities`, transcribed pass by pass:
1. every model entity with `confidence > 0.7` is appended to its bucket;
2. each rule entity is appended iff it overlaps no entity in any bucket
   (and its label names a bucket);
3. each model entity with `confidence <= 0.7` is appended iff it overlaps
   no entity already in its own bucket.
In pass 3 the source checks `label in entities` before reading
`entities[label]`; for a non-bucket label `getBucket` is `[]` and
`addToBucket` drops the entity, which coincides with the source's guard. -/
def merge_entities (ml_entities rule_entities : List Entity) : EntityCollection :=
  let c1 := ml_entities.foldl
    (fun col e => if highConfCut < e.confidence then addToBucket col e else col)
    emptyCollection
  let c2 := rule_entities.foldl
    (fun col r => if overlapsAnyBucket col r then col else addToBucket col r) c1
  ml_entities.foldl
    (fun col e =>
      if e.confidence ≤ highConfCut then
        if (getBucket col e.label).any (fun x => entities_overlap e x) then col
        else addToBucket col e
      else col) c2

/-- `AdvancedMedicalNER.extract_entities` with the two upstream extractors
(external collaborators) passed as functions: empty or whitespace-only text
short-circuits to the all-empty collection (`if not text or not
text.strip()`), otherwise both extractors run and their outputs are
merged. -/
def extract_entities (mlExtractor ruleExtractor : String → List Entity)
    (text : String) : EntityCollection :=
  if text.toList.isEmpty || text.toList.all isPyWs then emptyCollection
  else merge_entities (mlExtractor text) (ruleExtractor text)

/-! ## The ESI phrase lists (`setup_esi_criteria`) -/

def immediate_threats : List String :=
  ["cardiac arrest", "respiratory arrest", "pulseless", "apneic",
   "unresponsive", "unconscious", "comatose", "not breathing",
   "no pulse", "ventricular fibrillation", "ventricular tachycardia",
   "complete heart block", "severe shock", "major trauma with unstable vitals"]

def high_risk_symptoms : List String :=
  ["chest pain", "shortness of breath", "difficulty breathing",
   "severe abdominal pain", "altered mental status", "confusion",
   "severe headache", "sudden severe headache", "stroke symptoms",
   "facial drooping", "slurred speech", "weakness on one side",
   "syncope", "near syncope", "severe dehydration",
   "active bleeding", "severe trauma", "severe burns"]

def high_risk_conditions : List String :=
  ["acute myocardial infarction", "stroke", "sepsis", "pulmonary embolism",
   "aortic dissection", "ruptured aneurysm", "severe asthma attack",
   "diabetic ketoacidosis", "severe allergic reaction"]

def high_risk_medications : List String :=
  ["warfarin", "coumadin", "heparin", "insulin overdose",
   "chemotherapy", "immunosuppressants"]

def age_high_risk : Nat := 65

def concerning_terms : List String :=
  ["chest pain", "shortness of breath", "confusion", "fall"]

def moderate_symptoms : List String :=
  ["moderate pain", "fever", "vomiting", "diarrhea",
   "minor head injury", "laceration requiring sutures",
   "moderate abdominal pain", "urinary tract infection",
   "simple fracture", "sprain", "cellulitis"]

def chronic_conditions : List String :=
  ["diabetes", "hypertension", "asthma", "copd",
   "heart disease", "kidney disease"]

def simple_problems : List String :=
  ["mild pain", "minor injury", "simple laceration",
   "medication refill", "routine follow-up", "cold symptoms",
   "minor rash", "minor headache", "constipation"]

def single_resource : List String :=
  ["simple x-ray", "basic blood test", "urine test",
   "simple prescription", "wound cleaning"]

/-! ## The decision ladder (`ESITriageSystem`) -/

/-- `check_esi_level_1`: an immediate-threat phrase in the lowercased
transcript, or in some SYMPTOM entity's lowercased text, or a critical
vital sign in the transcript. -/
def check_esi_level_1 (entities : EntityCollection) (transcript : String) : Bool :=
  let tl := pyLower transcript.toList
  immediate_threats.any (fun th => containsS th tl)
  || entities.SYMPTOM.any (fun s =>
       immediate_threats.any (fun th => containsS th (pyLower s.text.toList)))
  || check_critical_vitals tl

/-- `check_esi_level_2`: high-risk symptom or condition phrases in the
transcript, high-risk phrases in SYMPTOM / DISEASE / MEDICATION entity
texts, or age ≥ 65 combined with a concerning term. -/
def check_esi_level_2 (entities : EntityCollection) (transcript : String) : Bool :=
  let tl := pyLower transcript.toList
  high_risk_symptoms.any (fun p => containsS p tl)
  || high_risk_conditions.any (fun p => containsS p tl)
  || entities.SYMPTOM.any (fun s =>
       high_risk_symptoms.any (fun p => containsS p (pyLower s.text.toList)))
  || entities.DISEASE.any (fun d =>
       high_risk_conditions.any (fun p => containsS p (pyLower d.text.toList)))
  || entities.MEDICATION.any (fun m =>
       high_risk_medications.any (fun p => containsS p (pyLower m.text.toList)))
  || (match searchAge tl with
      | some age =>
        if age_high_risk ≤ age then concerning_terms.any (fun p => containsS p tl)
        else false
      | none => false)

/-- `check_esi_level_3`: moderate-symptom phrases in transcript or SYMPTOM
entities, chronic-condition phrases in DISEASE entities, or at least two
PROCEDURE entities. -/
def check_esi_level_3 (entities : EntityCollection) (transcript : String) : Bool :=
  let tl := pyLower transcript.toList
  moderate_symptoms.any (fun p => containsS p tl)
  || entities.SYMPTOM.any (fun s =>
       moderate_symptoms.any (fun p => containsS p (pyLower s.text.toList)))
  || entities.DISEASE.any (fun d =>
       chronic_conditions.any (fun p => containsS p (pyLower d.text.toList)))
  || decide (2 ≤ entities.PROCEDURE.length)

/-- `check_esi_level_4`: simple-problem phrases in transcript or SYMPTOM
entities, or a single-resource phrase in the transcript. -/
def check_esi_level_4 (entities : EntityCollection) (transcript : String) : Bool :=
  let tl := pyLower transcript.toList
  simple_problems.any (fun p => containsS p tl)
  || entities.SYMPTOM.any (fun s =>
       simple_problems.any (fun p => containsS p (pyLower s.text.toList)))
  || single_resource.any (fun p => containsS p tl)

/-- The verdict record returned by `create_esi_response`. -/
structure ESIResponse where
  triage_level : Nat
  priority : String
  color_code : String
  recommendation : String
  wait_time : String
  esi_version : String
  assessment_id : String
  timestamp : String
  confidence : String
deriving DecidableEq

/-- `create_esi_response`.  The per-call `uuid.uuid4().hex[:8]` and
`datetime.now().isoformat()` are external nondeterminism and enter the
embedding as the oracle pair `meta = (assessment_id, timestamp)`.
`confidence` is the source's
`'HIGH' if level <= 2 else 'MEDIUM' if level == 3 else 'LOW'`. -/
def create_esi_response (meta : String × String) (level : Nat)
    (priority color recommendation wait_time : String) : ESIResponse :=
  { triage_level := level
    priority := priority
    color_code := color
    recommendation := recommendation
    wait_time := wait_time
    esi_version := "4.0"
    assessment_id := meta.1
    timestamp := meta.2
    confidence := if level ≤ 2 then "HIGH" else if level = 3 then "MEDIUM" else "LOW" }

/-- `ESITriageSystem.assess_esi_level`: the if/elif decision ladder. -/
def assess_esi_level (meta : String × String) (entities : EntityCollection)
    (transcript : String) : ESIResponse :=
  if check_esi_level_1 entities transcript then
    create_esi_response meta 1 "IMMEDIATE" "RED"
      "Immediate life-saving intervention required" "0 minutes"
  else if check_esi_level_2 entities transcript then
    create_esi_response meta 2 "EMERGENT" "ORANGE"
      "High-risk situation - should not wait" "≤10 minutes"
  else if check_esi_level_3 entities transcript then
    create_esi_response meta 3 "URGENT" "YELLOW"
      "Many resources needed - urgent care" "≤30 minutes"
  else if check_esi_level_4 entities transcript then
    create_esi_response meta 4 "LESS URGENT" "GREEN"
      "One resource needed - less urgent" "≤60 minutes"
  else
    create_esi_response meta 5 "NON-URGENT" "BLUE"
      "No resources needed - non-urgent" "≤120 minutes"

/-- The `ESITriageSystem` object state: the `_cache` dictionary, which is
cleared at the start of every call and never read. -/
structure TriageState where
  cache : List (String × String)
deriving DecidableEq

/-- `clear_cache`. -/
def clear_cache (_s : TriageState) : TriageState := { cache := [] }

/-- `assess_esi_level` as the source runs it on the object: clear the cache,
then compute the response (which reads only the call's arguments). -/
def assess_esi_level_st (s : TriageState) (meta : String × String)
    (entities : EntityCollection) (transcript : String) : TriageState × ESIResponse :=
  let s1 := clear_cache s
  (s1, assess_esi_level meta entities transcript)

/-! ## Spec-side formulation of the merge (for the refinement claim) -/

/-- All entities currently admitted, across the five category buckets. -/
def allEntities (col : EntityCollection) : List Entity :=
  col.SYMPTOM ++ col.MEDICATION ++ col.DISEASE ++ col.PROCEDURE ++ col.ANATOMY

/-- The merge algorithm as the spec states it (§4.2), written independently
of the source's control flow: (1) the model entities with confidence above
the threshold are admitted unconditionally; (2) each rule entity in original
order is admitted iff it overlaps no already-admitted entity in any category
bucket; (3) each remaining model entity (confidence at or below the
threshold) is admitted iff it overlaps no entity already present in its own
category bucket. -/
def mergeSpec (ml_entities rule_entities : List Entity) : EntityCollection :=
  let afterHigh := (ml_entities.filter fun e => decide (highConfCut < e.confidence)).foldl
    addToBucket emptyCollection
  let afterRule := rule_entities.foldl
    (fun col r =>
      if (allEntities col).all (fun x => !entities_overlap r x) then addToBucket col r
      else col)
    afterHigh
  (ml_entities.filter fun e => decide (e.confidence ≤ highConfCut)).foldl
    (fun col e =>
      if (getBucket col e.label).all (fun x => !entities_overlap e x) then addToBucket col e
      else col)
    afterRule

/-! ## The intra-category no-overlap invariant -/

/-- Pairwise absence of overlap along one category's sequence. -/
abbrev noOverlapPairwise (l : List Entity) : Prop :=
  l.Pairwise fun a b => entities_overlap a b = false

/-- No two entities of the same category overlap, for all five categories. -/
abbrev GoodCol (col : EntityCollection) : Prop :=
  noOverlapPairwise col.SYMPTOM ∧ noOverlapPairwise col.MEDICATION ∧
  noOverlapPairwise col.DISEASE ∧ noOverlapPairwise col.PROCEDURE ∧
  noOverlapPairwise col.ANATOMY


/-! ## Concrete inputs used by counterexamples and witnesses -/

/-- A high-confidence model entity, category SYMPTOM, span `[0,5)`. -/
def mlCexA : Entity :=
  { text := "chest pain", label := "SYMPTOM", confidence := mkRat 9 10,
    start := 0, stop := 5, source := "transformer" }

/-- A high-confidence model entity, category SYMPTOM, span `[2,8)`. -/
def mlCexB : Entity :=
  { text := "pain", label := "SYMPTOM", confidence := mkRat 9 10,
    start := 2, stop := 8, source := "transformer" }

def mlCexC : Entity :=
  { text := "fever", label := "SYMPTOM", confidence := mkRat 9 10,
    start := 0, stop := 5, source := "transformer" }

def mlCexD : Entity :=
  { text := "diabetes", label := "DISEASE", confidence := mkRat 3 10,
    start := 0, stop := 8, source := "transformer" }

def ruleCexR : Entity :=
  { text := "pain", label := "SYMPTOM", confidence := mkRat 1 1,
    start := 2, stop := 8, source := "rule-based" }

/-- The DISEASE entity of the spec's worked example 3. -/
def pneumoniaEntity : Entity :=
  { text := "pneumonia", label := "DISEASE", confidence := mkRat 1 1,
    start := 14, stop := 23, source := "rule-based" }

def pneumoniaEntities : EntityCollection := ⟨[], [], [pneumoniaEntity], [], []⟩

/-- Modelled from the claim's words (C10): the transcript contains a
substring `<m>/<n>` with `<m>`, `<n>` decimal digit runs and `1 ≤ m < 70`,
tested at every position (overlapping occurrences included). -/
def hasLowSlashPair : List Char → Bool
  | [] => false
  | c :: cs =>
    (match matchDD (c :: cs) with
     | some r => decide (1 ≤ digitsVal r.1) && decide (digitsVal r.1 < 70)
     | none => false) || hasLowSlashPair cs

/-! ## Category closure of the merge -/

/-- Every entity sits in the bucket named by its own category label. -/
abbrev LabelsOk (col : EntityCollection) : Prop :=
  (∀ e ∈ col.SYMPTOM, e.label = "SYMPTOM")
  ∧ (∀ e ∈ col.MEDICATION, e.label = "MEDICATION")
  ∧ (∀ e ∈ col.DISEASE, e.label = "DISEASE")
  ∧ (∀ e ∈ col.PROCEDURE, e.label = "PROCEDURE")
  ∧ (∀ e ∈ col.ANATOMY, e.label = "ANATOMY")


/-! ## Generic fold lemmas -/

theorem foldl_congr_fun {α β : Type} (g f : β → α → β)
    (h : ∀ acc a, g acc a = f acc a) :
    ∀ (l : List α) (b : β), l.foldl g b = l.foldl f b := by
  intro l
  induction l with
  | nil => intro b; rfl
  | cons a l ih =>
    intro b
    rw [List.foldl_cons, List.foldl_cons, h]
    exact ih _

theorem foldl_guard_eq_filter {α β : Type} (q : α → Prop) [DecidablePred q]
    (g f : β → α → β) (hg : ∀ acc a, g acc a = if q a then f acc a else acc) :
    ∀ (l : List α) (b : β),
      l.foldl g b = (l.filter fun a => decide (q a)).foldl f b := by
  intro l
  induction l with
  | nil => intro b; rfl
  | cons a l ih =>
    intro b
    by_cases h : q a
    · rw [List.foldl_cons, hg, if_pos h]
      rw [List.filter_cons, if_pos (by simpa using h), List.foldl_cons]
      exact ih _
    · rw [List.foldl_cons, hg, if_neg h]
      rw [List.filter_cons, if_neg (by simpa using h)]
      exact ih _

theorem foldl_preserves {α β : Type} (P : β → Prop) (step : β → α → β)
    (h : ∀ b a, P b → P (step b a)) :
    ∀ (l : List α) (b : β), P b → P (l.foldl step b) := by
  intro l
  induction l with
  | nil => intro b hb; exact hb
  | cons a l ih =>
    intro b hb
    rw [List.foldl_cons]
    exact ih _ (h b a hb)

theorem any_eq_not_all_not {α : Type} (l : List α) (f : α → Bool) :
    l.any f = !(l.all fun x => !f x) := by
  induction l with
  | nil => rfl
  | cons a l ih => cases h : f a <;> simp [h, ih]

theorem if_not_flip {β : Type} (b : Bool) (x y : β) :
    (if !b then x else y) = if b then y else x := by
  cases b <;> rfl

/-! ## Structural facts about `addToBucket` / `getBucket` -/

theorem entities_overlap_comm (a b : Entity) :
    entities_overlap a b = entities_overlap b a := by
  simp [entities_overlap, Bool.or_comm]

theorem addToBucket_buckets (col : EntityCollection) (e : Entity) :
    (addToBucket col e).SYMPTOM
      = (if e.label = "SYMPTOM" then col.SYMPTOM ++ [e] else col.SYMPTOM)
    ∧ (addToBucket col e).MEDICATION
      = (if e.label = "MEDICATION" then col.MEDICATION ++ [e] else col.MEDICATION)
    ∧ (addToBucket col e).DISEASE
      = (if e.label = "DISEASE" then col.DISEASE ++ [e] else col.DISEASE)
    ∧ (addToBucket col e).PROCEDURE
      = (if e.label = "PROCEDURE" then col.PROCEDURE ++ [e] else col.PROCEDURE)
    ∧ (addToBucket col e).ANATOMY
      = (if e.label = "ANATOMY" then col.ANATOMY ++ [e] else col.ANATOMY) := by
  by_cases h1 : e.label = "SYMPTOM"
  · simp +decide [addToBucket, h1]
  · by_cases h2 : e.label = "MEDICATION"
    · simp +decide [addToBucket, h1, h2]
    · by_cases h3 : e.label = "DISEASE"
      · simp +decide [addToBucket, h1, h2, h3]
      · by_cases h4 : e.label = "PROCEDURE"
        · simp +decide [addToBucket, h1, h2, h3, h4]
        · by_cases h5 : e.label = "ANATOMY"
          · simp +decide [addToBucket, h1, h2, h3, h4, h5]
          · simp [addToBucket, h1, h2, h3, h4, h5]

theorem overlapsAnyBucket_eq (col : EntityCollection) (e : Entity) :
    overlapsAnyBucket col e = !((allEntities col).all fun x => !entities_overlap e x) := by
  simp [overlapsAnyBucket, allEntities, List.all_append, any_eq_not_all_not,
    Bool.not_and, Bool.not_not, Bool.or_assoc]

/-- C3: the transcription of `merge_entities` and the spec's three-pass
description compute the same collection on every input. -/
theorem merge_three_pass_refines_spec (ml_entities rule_entities : List Entity) :
    merge_entities ml_entities rule_entities = mergeSpec ml_entities rule_entities := by
  have h1 : ∀ (l : List Entity) (b : EntityCollection),
      l.foldl (fun col e => if highConfCut < e.confidence then addToBucket col e else col) b
        = (l.filter fun e => decide (highConfCut < e.confidence)).foldl addToBucket b :=
    foldl_guard_eq_filter _ _ _ (fun _ _ => rfl)
  have h2 : ∀ (l : List Entity) (b : EntityCollection),
      l.foldl (fun col r => if overlapsAnyBucket col r then col else addToBucket col r) b
        = l.foldl (fun col r =>
            if (allEntities col).all (fun x => !entities_overlap r x) then addToBucket col r
            else col) b := by
    refine foldl_congr_fun _ _ ?_
    intro col r
    rw [overlapsAnyBucket_eq]
    exact if_not_flip _ _ _
  have h3 : ∀ (l : List Entity) (b : EntityCollection),
      l.foldl (fun col e =>
          if e.confidence ≤ highConfCut then
            (if (getBucket col e.label).any (fun x => entities_overlap e x) then col
             else addToBucket col e)
          else col) b
        = (l.filter fun e => decide (e.confidence ≤ highConfCut)).foldl
            (fun col e =>
              if (getBucket col e.label).any (fun x => entities_overlap e x) then col
              else addToBucket col e) b :=
    foldl_guard_eq_filter _ _ _ (fun _ _ => rfl)
  have h4 : ∀ (l : List Entity) (b : EntityCollection),
      l.foldl (fun col e =>
          if (getBucket col e.label).any (fun x => entities_overlap e x) then col
          else addToBucket col e) b
        = l.foldl (fun col e =>
            if (getBucket col e.label).all (fun x => !entities_overlap e x) then
              addToBucket col e
            else col) b := by
    refine foldl_congr_fun _ _ ?_
    intro col e
    rw [any_eq_not_all_not]
    exact if_not_flip _ _ _
  simp only [merge_entities, mergeSpec]
  rw [h1, h2, h3, h4]

theorem noOverlapPairwise_snoc (l : List Entity) (e : Entity)
    (hl : noOverlapPairwise l) (h : ∀ x ∈ l, entities_overlap e x = false) :
    noOverlapPairwise (l ++ [e]) := by
  unfold noOverlapPairwise
  rw [List.pairwise_append]
  refine ⟨hl, List.pairwise_singleton _ _, ?_⟩
  intro x hx y hy
  rw [List.mem_singleton] at hy
  subst hy
  rw [entities_overlap_comm]
  exact h x hx

theorem addToBucket_good (col : EntityCollection) (e : Entity)
    (hcol : GoodCol col)
    (h : ∀ x ∈ getBucket col e.label, entities_overlap e x = false) :
    GoodCol (addToBucket col e) := by
  obtain ⟨g1, g2, g3, g4, g5⟩ := hcol
  by_cases h1 : e.label = "SYMPTOM"
  · simp [getBucket, h1] at h
    simp [GoodCol, addToBucket, h1]
    exact ⟨noOverlapPairwise_snoc _ _ g1 h, g2, g3, g4, g5⟩
  · by_cases h2 : e.label = "MEDICATION"
    · simp [getBucket, h1, h2] at h
      simp [GoodCol, addToBucket, h1, h2]
      exact ⟨g1, noOverlapPairwise_snoc _ _ g2 h, g3, g4, g5⟩
    · by_cases h3 : e.label = "DISEASE"
      · simp [getBucket, h1, h2, h3] at h
        simp [GoodCol, addToBucket, h1, h2, h3]
        exact ⟨g1, g2, noOverlapPairwise_snoc _ _ g3 h, g4, g5⟩
      · by_cases h4 : e.label = "PROCEDURE"
        · simp [getBucket, h1, h2, h3, h4] at h
          simp [GoodCol, addToBucket, h1, h2, h3, h4]
          exact ⟨g1, g2, g3, noOverlapPairwise_snoc _ _ g4 h, g5⟩
        · by_cases h5 : e.label = "ANATOMY"
          · simp [getBucket, h1, h2, h3, h4, h5] at h
            simp [GoodCol, addToBucket, h1, h2, h3, h4, h5]
            exact ⟨g1, g2, g3, g4, noOverlapPairwise_snoc _ _ g5 h⟩
          · simp [GoodCol, addToBucket, h1, h2, h3, h4, h5]
            exact ⟨g1, g2, g3, g4, g5⟩

theorem getBucket_no_overlap_of_not_any (col : EntityCollection) (e : Entity)
    (h : overlapsAnyBucket col e = false) (lab : String) :
    ∀ x ∈ getBucket col lab, entities_overlap e x = false := by
  simp only [overlapsAnyBucket, Bool.or_eq_false_iff, List.any_eq_false] at h
  obtain ⟨⟨⟨⟨hS, hM⟩, hD⟩, hP⟩, hA⟩ := h
  intro x hx
  unfold getBucket at hx
  split_ifs at hx
  · simpa using hS x hx
  · simpa using hM x hx
  · simpa using hD x hx
  · simpa using hP x hx
  · simpa using hA x hx
  · simp at hx

theorem merge_pass2_step_good :
    ∀ (col : EntityCollection) (r : Entity), GoodCol col →
      GoodCol (if overlapsAnyBucket col r then col else addToBucket col r) := by
  intro col r hcol
  by_cases ho : overlapsAnyBucket col r
  · rwa [if_pos ho]
  · rw [if_neg ho]
    exact addToBucket_good col r hcol
      (getBucket_no_overlap_of_not_any col r (by simpa using ho) r.label)

theorem merge_pass3_step_good :
    ∀ (col : EntityCollection) (e : Entity), GoodCol col →
      GoodCol (if e.confidence ≤ highConfCut then
          (if (getBucket col e.label).any (fun x => entities_overlap e x) then col
           else addToBucket col e)
        else col) := by
  intro col e hcol
  by_cases hc : e.confidence ≤ highConfCut
  · rw [if_pos hc]
    by_cases ha : (getBucket col e.label).any (fun x => entities_overlap e x)
    · rwa [if_pos ha]
    · rw [if_neg ha]
      refine addToBucket_good col e hcol ?_
      intro x hx
      have ha' : (getBucket col e.label).any (fun x => entities_overlap e x) = false := by
        simpa using ha
      rw [List.any_eq_false] at ha'
      simpa using ha' x hx
  · rwa [if_neg hc]

theorem foldl_addToBucket_buckets :
    ∀ (l : List Entity) (col : EntityCollection),
      ((l.foldl addToBucket col).SYMPTOM
        = col.SYMPTOM ++ l.filter fun e => decide (e.label = "SYMPTOM"))
      ∧ ((l.foldl addToBucket col).MEDICATION
        = col.MEDICATION ++ l.filter fun e => decide (e.label = "MEDICATION"))
      ∧ ((l.foldl addToBucket col).DISEASE
        = col.DISEASE ++ l.filter fun e => decide (e.label = "DISEASE"))
      ∧ ((l.foldl addToBucket col).PROCEDURE
        = col.PROCEDURE ++ l.filter fun e => decide (e.label = "PROCEDURE"))
      ∧ ((l.foldl addToBucket col).ANATOMY
        = col.ANATOMY ++ l.filter fun e => decide (e.label = "ANATOMY")) := by
  intro l
  induction l with
  | nil => intro col; simp
  | cons e l ih =>
    intro col
    obtain ⟨i1, i2, i3, i4, i5⟩ := ih (addToBucket col e)
    obtain ⟨b1, b2, b3, b4, b5⟩ := addToBucket_buckets col e
    rw [List.foldl_cons]
    refine ⟨?_, ?_, ?_, ?_, ?_⟩
    · rw [i1, b1, List.filter_cons]
      by_cases h : e.label = "SYMPTOM" <;> simp [h, List.append_assoc]
    · rw [i2, b2, List.filter_cons]
      by_cases h : e.label = "MEDICATION" <;> simp [h, List.append_assoc]
    · rw [i3, b3, List.filter_cons]
      by_cases h : e.label = "DISEASE" <;> simp [h, List.append_assoc]
    · rw [i4, b4, List.filter_cons]
      by_cases h : e.label = "PROCEDURE" <;> simp [h, List.append_assoc]
    · rw [i5, b5, List.filter_cons]
      by_cases h : e.label = "ANATOMY" <;> simp [h, List.append_assoc]

theorem pass1_bucket_pairwise (ml : List Entity) (lab : String)
    (Hml : ml.Pairwise fun a b =>
      highConfCut < a.confidence → highConfCut < b.confidence →
      a.label = b.label → entities_overlap a b = false) :
    noOverlapPairwise
      ((ml.filter fun e => decide (highConfCut < e.confidence)).filter
        fun e => decide (e.label = lab)) := by
  have h1 := List.Pairwise.filter (fun e => decide (highConfCut < e.confidence)) Hml
  have h2 := List.Pairwise.filter (fun e => decide (e.label = lab)) h1
  refine List.Pairwise.imp_of_mem ?_ h2
  intro a b ha hb hab
  have haf := List.mem_filter.mp ha
  have hbf := List.mem_filter.mp hb
  have ha2 := List.mem_filter.mp haf.1
  have hb2 := List.mem_filter.mp hbf.1
  have hal : a.label = lab := by simpa using haf.2
  have hbl : b.label = lab := by simpa using hbf.2
  exact hab (by simpa using ha2.2) (by simpa using hb2.2) (by rw [hal, hbl])

theorem merge_pass1_good (ml : List Entity)
    (Hml : ml.Pairwise fun a b =>
      highConfCut < a.confidence → highConfCut < b.confidence →
      a.label = b.label → entities_overlap a b = false) :
    GoodCol (ml.foldl
      (fun col e => if highConfCut < e.confidence then addToBucket col e else col)
      emptyCollection) := by
  rw [foldl_guard_eq_filter (fun e => highConfCut < e.confidence) _ addToBucket
    (fun _ _ => rfl)]
  obtain ⟨b1, b2, b3, b4, b5⟩ := foldl_addToBucket_buckets
    (ml.filter fun e => decide (highConfCut < e.confidence)) emptyCollection
  refine ⟨?_, ?_, ?_, ?_, ?_⟩
  · rw [b1]; simpa [emptyCollection] using pass1_bucket_pairwise ml "SYMPTOM" Hml
  · rw [b2]; simpa [emptyCollection] using pass1_bucket_pairwise ml "MEDICATION" Hml
  · rw [b3]; simpa [emptyCollection] using pass1_bucket_pairwise ml "DISEASE" Hml
  · rw [b4]; simpa [emptyCollection] using pass1_bucket_pairwise ml "PROCEDURE" Hml
  · rw [b5]; simpa [emptyCollection] using pass1_bucket_pairwise ml "ANATOMY" Hml

/-- C2 (amended): whenever no two high-confidence (`> 0.7`) model entities
of the same category overlap, the merged collection contains no two
overlapping entities within any category's sequence.  (The unconditional
claim fails: pass 1 admits high-confidence model entities without an
overlap check, see `merge_overlap_invariant_cex`.) -/
theorem merge_no_intra_category_overlap (ml_entities rule_entities : List Entity)
    (Hml : ml_entities.Pairwise fun a b =>
      highConfCut < a.confidence → highConfCut < b.confidence →
      a.label = b.label → entities_overlap a b = false) :
    GoodCol (merge_entities ml_entities rule_entities) := by
  simp only [merge_entities]
  exact foldl_preserves GoodCol _ merge_pass3_step_good ml_entities _
    (foldl_preserves GoodCol _ merge_pass2_step_good rule_entities _
      (merge_pass1_good ml_entities Hml))

/-- C2 counterexample: two overlapping high-confidence model entities of the
same category are both admitted by the unconditional pass 1, so the merged
SYMPTOM sequence violates the no-overlap invariant. -/
theorem merge_overlap_invariant_cex :
    (merge_entities [mlCexA, mlCexB] []).SYMPTOM = [mlCexA, mlCexB]
    ∧ entities_overlap mlCexA mlCexB = true
    ∧ ¬ GoodCol (merge_entities [mlCexA, mlCexB] []) := by
  exact ⟨by decide, by decide, by decide⟩

/-- Witness for `merge_no_intra_category_overlap`: a concrete input whose
high-confidence model entities are pairwise non-overlapping per category,
with the conclusion instantiated there. -/
theorem merge_no_intra_category_overlap_witness :
    ([mlCexC, mlCexD].Pairwise fun a b =>
      highConfCut < a.confidence → highConfCut < b.confidence →
      a.label = b.label → entities_overlap a b = false)
    ∧ GoodCol (merge_entities [mlCexC, mlCexD] [ruleCexR]) :=
  ⟨by decide, merge_no_intra_category_overlap _ _ (by decide)⟩

theorem labels_bucket_step (l : List Entity) (e : Entity) (lab : String)
    (g : ∀ x ∈ l, x.label = lab) :
    ∀ x ∈ (if e.label = lab then l ++ [e] else l), x.label = lab := by
  by_cases hl : e.label = lab
  · rw [if_pos hl]
    intro x hx
    rcases List.mem_append.mp hx with hx | hx
    · exact g x hx
    · rw [List.mem_singleton] at hx
      subst hx
      exact hl
  · rw [if_neg hl]
    exact g

theorem addToBucket_labels (col : EntityCollection) (e : Entity)
    (h : LabelsOk col) : LabelsOk (addToBucket col e) := by
  obtain ⟨g1, g2, g3, g4, g5⟩ := h
  obtain ⟨b1, b2, b3, b4, b5⟩ := addToBucket_buckets col e
  refine ⟨?_, ?_, ?_, ?_, ?_⟩
  · rw [b1]; exact labels_bucket_step _ _ _ g1
  · rw [b2]; exact labels_bucket_step _ _ _ g2
  · rw [b3]; exact labels_bucket_step _ _ _ g3
  · rw [b4]; exact labels_bucket_step _ _ _ g4
  · rw [b5]; exact labels_bucket_step _ _ _ g5

theorem merge_labels_ok (ml_entities rule_entities : List Entity) :
    LabelsOk (merge_entities ml_entities rule_entities) := by
  simp only [merge_entities]
  have hstep1 : ∀ (col : EntityCollection) (e : Entity), LabelsOk col →
      LabelsOk (if highConfCut < e.confidence then addToBucket col e else col) := by
    intro col e h
    by_cases hc : highConfCut < e.confidence
    · rw [if_pos hc]; exact addToBucket_labels col e h
    · rwa [if_neg hc]
  have hstep2 : ∀ (col : EntityCollection) (r : Entity), LabelsOk col →
      LabelsOk (if overlapsAnyBucket col r then col else addToBucket col r) := by
    intro col r h
    by_cases hc : overlapsAnyBucket col r
    · rwa [if_pos hc]
    · rw [if_neg hc]; exact addToBucket_labels col r h
  have hstep3 : ∀ (col : EntityCollection) (e : Entity), LabelsOk col →
      LabelsOk (if e.confidence ≤ highConfCut then
          (if (getBucket col e.label).any (fun x => entities_overlap e x) then col
           else addToBucket col e)
        else col) := by
    intro col e h
    by_cases hc : e.confidence ≤ highConfCut
    · rw [if_pos hc]
      by_cases ha : (getBucket col e.label).any (fun x => entities_overlap e x)
      · rwa [if_pos ha]
      · rw [if_neg ha]; exact addToBucket_labels col e h
    · rwa [if_neg hc]
  have hempty : LabelsOk emptyCollection := by
    refine ⟨?_, ?_, ?_, ?_, ?_⟩ <;>
      · intro x hx
        simp [emptyCollection] at hx
  exact foldl_preserves LabelsOk _ hstep3 ml_entities _
    (foldl_preserves LabelsOk _ hstep2 rule_entities _
      (foldl_preserves LabelsOk _ hstep1 ml_entities _ hempty))

/-- C7: every merged collection carries exactly the five fixed categories
(the record type `EntityCollection` mirrors the source's fixed dict
literal); every admitted entity's label equals its bucket's category, so an
entity tagged `OTHER` (or anything outside the five) never appears in any
pass's output; and empty or whitespace-only input text yields the all-empty
collection with no error raised. -/
theorem merge_category_closure :
    (∀ ml_entities rule_entities,
      LabelsOk (merge_entities ml_entities rule_entities))
    ∧ (∀ (mlExtractor ruleExtractor : String → List Entity) (text : String),
        text.toList.all isPyWs = true →
        extract_entities mlExtractor ruleExtractor text = emptyCollection) := by
  constructor
  · exact merge_labels_ok
  · intro mlX rlX text h
    unfold extract_entities
    rw [h, Bool.or_true]
    simp

/-- Witness for `merge_category_closure`: membership + label at a concrete
merge, and the whitespace-only short-circuit at a concrete extractor pair. -/
theorem merge_category_closure_witness :
    mlCexC.label = "SYMPTOM"
    ∧ extract_entities (fun _ => [mlCexA]) (fun _ => [ruleCexR]) "  " = emptyCollection :=
  ⟨(merge_category_closure.1 [mlCexC] []).1 mlCexC (by decide),
   merge_category_closure.2 (fun _ => [mlCexA]) (fun _ => [ruleCexR]) "  " (by decide)⟩

/-! ## The decision-ladder claims -/

/-- C1: the ladder evaluates the level predicates in strict descending-acuity
order with short-circuit; the returned `triage_level` is exactly the first
level whose predicate is true (5 when none is), and a true Level-1 predicate
forces the full level-1 verdict regardless of the level-2..4 predicates. -/
theorem assess_evaluates_levels_in_order (meta : String × String)
    (entities : EntityCollection) (transcript : String) :
    ((assess_esi_level meta entities transcript).triage_level = 1
      ↔ check_esi_level_1 entities transcript = true)
    ∧ ((assess_esi_level meta entities transcript).triage_level = 2
      ↔ check_esi_level_1 entities transcript = false
        ∧ check_esi_level_2 entities transcript = true)
    ∧ ((assess_esi_level meta entities transcript).triage_level = 3
      ↔ check_esi_level_1 entities transcript = false
        ∧ check_esi_level_2 entities transcript = false
        ∧ check_esi_level_3 entities transcript = true)
    ∧ ((assess_esi_level meta entities transcript).triage_level = 4
      ↔ check_esi_level_1 entities transcript = false
        ∧ check_esi_level_2 entities transcript = false
        ∧ check_esi_level_3 entities transcript = false
        ∧ check_esi_level_4 entities transcript = true)
    ∧ ((assess_esi_level meta entities transcript).triage_level = 5
      ↔ check_esi_level_1 entities transcript = false
        ∧ check_esi_level_2 entities transcript = false
        ∧ check_esi_level_3 entities transcript = false
        ∧ check_esi_level_4 entities transcript = false)
    ∧ (check_esi_level_1 entities transcript = true →
        assess_esi_level meta entities transcript
          = create_esi_response meta 1 "IMMEDIATE" "RED"
              "Immediate life-saving intervention required" "0 minutes") := by
  cases h1 : check_esi_level_1 entities transcript <;>
    cases h2 : check_esi_level_2 entities transcript <;>
      cases h3 : check_esi_level_3 entities transcript <;>
        cases h4 : check_esi_level_4 entities transcript <;>
          simp [assess_esi_level, create_esi_response, h1, h2, h3, h4]

/-- Witness for `assess_evaluates_levels_in_order`: a transcript satisfying
the level-1, level-2 and level-3 predicates at once still classifies as
level 1. -/
theorem assess_evaluates_levels_in_order_witness :
    check_esi_level_1 emptyCollection "cardiac arrest with chest pain and fever" = true
    ∧ check_esi_level_2 emptyCollection "cardiac arrest with chest pain and fever" = true
    ∧ check_esi_level_3 emptyCollection "cardiac arrest with chest pain and fever" = true
    ∧ (assess_esi_level ("a1b2c3d4", "2026-01-01T00:00:00") emptyCollection
        "cardiac arrest with chest pain and fever").triage_level = 1 :=
  ⟨rfl, rfl, rfl,
   ((assess_evaluates_levels_in_order ("a1b2c3d4", "2026-01-01T00:00:00") emptyCollection
      "cardiac arrest with chest pain and fever").1).mpr rfl⟩

/-- C6: classification is total — every call ends in one of the five
verdicts (the embedding's checks and scanners are total functions, with
failed numeric sub-parses skipped as `none`); when no level-1..4 predicate
matches the result is the unconditional level-5 default; and the empty
transcript with empty entities yields level 5, BLUE, LOW. -/
theorem assess_total_and_default :
    (∀ (meta : String × String) (entities : EntityCollection) (transcript : String),
      1 ≤ (assess_esi_level meta entities transcript).triage_level
      ∧ (assess_esi_level meta entities transcript).triage_level ≤ 5)
    ∧ (∀ (meta : String × String) (entities : EntityCollection) (transcript : String),
        check_esi_level_1 entities transcript = false →
        check_esi_level_2 entities transcript = false →
        check_esi_level_3 entities transcript = false →
        check_esi_level_4 entities transcript = false →
        assess_esi_level meta entities transcript
          = create_esi_response meta 5 "NON-URGENT" "BLUE"
              "No resources needed - non-urgent" "≤120 minutes")
    ∧ ((assess_esi_level ("", "") emptyCollection "").triage_level = 5
      ∧ (assess_esi_level ("", "") emptyCollection "").color_code = "BLUE"
      ∧ (assess_esi_level ("", "") emptyCollection "").confidence = "LOW") := by
  refine ⟨?_, ?_, rfl, rfl, rfl⟩
  · intro meta entities transcript
    cases h1 : check_esi_level_1 entities transcript <;>
      cases h2 : check_esi_level_2 entities transcript <;>
        cases h3 : check_esi_level_3 entities transcript <;>
          cases h4 : check_esi_level_4 entities transcript <;>
            simp [assess_esi_level, create_esi_response, h1, h2, h3, h4]
  · intro meta entities transcript h1 h2 h3 h4
    simp [assess_esi_level, h1, h2, h3, h4]

/-- Witness for `assess_total_and_default` at a transcript matching no
predicate. -/
theorem assess_total_and_default_witness :
    check_esi_level_1 emptyCollection "routine visit" = false
    ∧ check_esi_level_2 emptyCollection "routine visit" = false
    ∧ check_esi_level_3 emptyCollection "routine visit" = false
    ∧ check_esi_level_4 emptyCollection "routine visit" = false
    ∧ assess_esi_level ("x", "y") emptyCollection "routine visit"
        = create_esi_response ("x", "y") 5 "NON-URGENT" "BLUE"
            "No resources needed - non-urgent" "≤120 minutes"
    ∧ 1 ≤ (assess_esi_level ("x", "y") emptyCollection "routine visit").triage_level :=
  ⟨rfl, rfl, rfl, rfl,
   assess_total_and_default.2.1 ("x", "y") emptyCollection "routine visit" rfl rfl rfl rfl,
   (assess_total_and_default.1 ("x", "y") emptyCollection "routine visit").1⟩

/-- C8: the classifier is deterministic up to metadata and stateless — two
calls from any two object states and any two metadata oracles agree on
every verdict field except `assessment_id` and `timestamp`, and the merge's
output is a function of its two argument lists alone. -/
theorem classifier_deterministic_stateless :
    (∀ (s s' : TriageState) (meta meta' : String × String)
        (entities : EntityCollection) (transcript : String),
      ((assess_esi_level_st s meta entities transcript).2.triage_level
        = (assess_esi_level_st s' meta' entities transcript).2.triage_level)
      ∧ ((assess_esi_level_st s meta entities transcript).2.priority
        = (assess_esi_level_st s' meta' entities transcript).2.priority)
      ∧ ((assess_esi_level_st s meta entities transcript).2.color_code
        = (assess_esi_level_st s' meta' entities transcript).2.color_code)
      ∧ ((assess_esi_level_st s meta entities transcript).2.recommendation
        = (assess_esi_level_st s' meta' entities transcript).2.recommendation)
      ∧ ((assess_esi_level_st s meta entities transcript).2.wait_time
        = (assess_esi_level_st s' meta' entities transcript).2.wait_time)
      ∧ ((assess_esi_level_st s meta entities transcript).2.esi_version
        = (assess_esi_level_st s' meta' entities transcript).2.esi_version)
      ∧ ((assess_esi_level_st s meta entities transcript).2.confidence
        = (assess_esi_level_st s' meta' entities transcript).2.confidence))
    ∧ (∀ ml_entities rule_entities ml' rl',
        ml_entities = ml' → rule_entities = rl' →
        merge_entities ml_entities rule_entities = merge_entities ml' rl') := by
  constructor
  · intro s s' meta meta' entities transcript
    simp only [assess_esi_level_st]
    cases h1 : check_esi_level_1 entities transcript <;>
      cases h2 : check_esi_level_2 entities transcript <;>
        cases h3 : check_esi_level_3 entities transcript <;>
          cases h4 : check_esi_level_4 entities transcript <;>
            simp [assess_esi_level, create_esi_response, h1, h2, h3, h4]
  · intro ml rl ml' rl' hm hr
    rw [hm, hr]

/-- Witness for `classifier_deterministic_stateless`: two calls with
different prior cache states and different assessment-id/timestamp oracles
agree on the triage level. -/
theorem classifier_deterministic_stateless_witness :
    ((assess_esi_level_st ⟨[("stale", "entry")]⟩ ("id1", "t1") emptyCollection
        "fever").2.triage_level
      = (assess_esi_level_st ⟨[]⟩ ("id2", "t2") emptyCollection "fever").2.triage_level)
    ∧ merge_entities [mlCexA] [ruleCexR] = merge_entities [mlCexA] [ruleCexR] :=
  ⟨(classifier_deterministic_stateless.1 ⟨[("stale", "entry")]⟩ ⟨[]⟩ ("id1", "t1")
      ("id2", "t2") emptyCollection "fever").1,
   classifier_deterministic_stateless.2 [mlCexA] [ruleCexR] [mlCexA] [ruleCexR] rfl rfl⟩

/-- C9: every verdict's (level, priority, color, wait-time) tuple is one of
the five fixed rows, and the confidence band is determined by the level
alone (1–2 HIGH, 3 MEDIUM, 4–5 LOW). -/
theorem verdict_rows_fixed (meta : String × String) (entities : EntityCollection)
    (transcript : String) :
    ((assess_esi_level meta entities transcript).triage_level,
      (assess_esi_level meta entities transcript).priority,
      (assess_esi_level meta entities transcript).color_code,
      (assess_esi_level meta entities transcript).wait_time)
      ∈ [(1, "IMMEDIATE", "RED", "0 minutes"),
         (2, "EMERGENT", "ORANGE", "≤10 minutes"),
         (3, "URGENT", "YELLOW", "≤30 minutes"),
         (4, "LESS URGENT", "GREEN", "≤60 minutes"),
         (5, "NON-URGENT", "BLUE", "≤120 minutes")]
    ∧ (assess_esi_level meta entities transcript).confidence
      = (if (assess_esi_level meta entities transcript).triage_level ≤ 2 then "HIGH"
         else if (assess_esi_level meta entities transcript).triage_level = 3 then "MEDIUM"
         else "LOW") := by
  cases h1 : check_esi_level_1 entities transcript <;>
    cases h2 : check_esi_level_2 entities transcript <;>
      cases h3 : check_esi_level_3 entities transcript <;>
        cases h4 : check_esi_level_4 entities transcript <;>
          simp [assess_esi_level, create_esi_response, h1, h2, h3, h4]

/-! ## The worked-example and vital-sign claims -/

/-- C4 counterexample: on the entities `{DISEASE: [pneumonia, confidence
1.0]}` and transcript "follow-up for pneumonia" the classifier does not
return level 3 / YELLOW — "pneumonia" matches none of the level-1..4 phrase
lists ("pneumonia" is not among the moderate symptoms or chronic
conditions, and the transcript lacks "routine follow-up"). -/
theorem pneumonia_example_cex :
    (assess_esi_level ("", "") pneumoniaEntities "follow-up for pneumonia").triage_level ≠ 3
    ∧ (assess_esi_level ("", "") pneumoniaEntities
        "follow-up for pneumonia").color_code ≠ "YELLOW" := by
  exact ⟨by decide, by decide⟩

/-- C4 (amended): that input classifies as the default level 5, BLUE, LOW. -/
theorem pneumonia_example_level_5 :
    (assess_esi_level ("", "") pneumoniaEntities "follow-up for pneumonia").triage_level = 5
    ∧ (assess_esi_level ("", "") pneumoniaEntities "follow-up for pneumonia").color_code
        = "BLUE"
    ∧ (assess_esi_level ("", "") pneumoniaEntities "follow-up for pneumonia").confidence
        = "LOW" :=
  ⟨rfl, rfl, rfl⟩

/-- C5: the heart-rate and oxygen-saturation scans read only capture group 1
of their patterns, so readings labelled "pulse", "hr", "o2 sat" or "spo2"
are silently skipped (`int(None)` raises into `except: continue`): "pulse
30" and "spo2 80" classify as level 5, not level 1, while the group-1 labels
"heart rate" and "oxygen saturation" do work. -/
theorem pulse_spo2_readings_skipped :
    check_critical_vitals (pyLower "pulse 30".toList) = false
    ∧ (assess_esi_level ("", "") emptyCollection "pulse 30").triage_level = 5
    ∧ check_critical_vitals (pyLower "spo2 80".toList) = false
    ∧ (assess_esi_level ("", "") emptyCollection "spo2 80").triage_level = 5
    ∧ check_critical_vitals (pyLower "heart rate 30".toList) = true
    ∧ (assess_esi_level ("", "") emptyCollection "heart rate 30").triage_level = 1
    ∧ check_critical_vitals (pyLower "oxygen saturation 80".toList) = true
    ∧ (assess_esi_level ("", "") emptyCollection "oxygen saturation 80").triage_level = 1 :=
  ⟨rfl, rfl, rfl, rfl, rfl, rfl, rfl, rfl⟩

/-- C10 counterexample: "70/2/3" contains the substring "2/3" (m = 2 with
1 ≤ 2 < 70) yet classifies as level 5: `finditer` consumes "70/2" as its
first leftmost non-overlapping match (systolic 70, not < 70), and the later
"2/3" lies inside the consumed region, so it is never matched. -/
theorem bare_slash_claim_cex :
    hasLowSlashPair (pyLower "70/2/3".toList) = true
    ∧ (assess_esi_level ("", "") emptyCollection "70/2/3").triage_level = 5 :=
  ⟨rfl, rfl⟩

/-- C10 (amended): whenever the blood-pressure scan of
`check_critical_vitals` — leftmost non-overlapping matching, the labelled
alternatives tried first — yields a match whose systolic (first) number v
satisfies 1 ≤ v < 70, the classifier returns level 1 for any entities; no
blood-pressure label is required, since the bare digits/digits alternative
matches too. -/
theorem bare_slash_systolic_level_1 (meta : String × String)
    (entities : EntityCollection) (transcript : String)
    (h : bpScan (pyLower transcript.toList) = true) :
    (assess_esi_level meta entities transcript).triage_level = 1 := by
  have h1 : check_esi_level_1 entities transcript = true := by
    have h' : bpScan (pyLower transcript.data) = true := h
    simp [check_esi_level_1, check_critical_vitals, h']
  simp [assess_esi_level, h1, create_esi_response]

/-- Witness for `bare_slash_systolic_level_1`: the label-free pain scores
"pain 3/10" and "rated 10/10" both classify as level 1. -/
theorem bare_slash_systolic_level_1_witness :
    bpScan (pyLower "pain 3/10".toList) = true
    ∧ (assess_esi_level ("", "") emptyCollection "pain 3/10").triage_level = 1
    ∧ bpScan (pyLower "rated 10/10".toList) = true
    ∧ (assess_esi_level ("", "") emptyCollection "rated 10/10").triage_level = 1 :=
  ⟨rfl, bare_slash_systolic_level_1 ("", "") emptyCollection "pain 3/10" rfl, rfl,
   bare_slash_systolic_level_1 ("", "") emptyCollection "rated 10/10" rfl⟩

/-! ## Concrete evaluations of the embedding (sanity checks) -/

example : bpScan "pain 3/10".toList = true := rfl
example : bpScan "blood pressure 120/80".toList = false := rfl
example : bpScan "bp 60/40".toList = true := rfl
example : check_critical_vitals "pulse 30".toList = false := rfl
example : check_critical_vitals "heart rate 30".toList = true := rfl
example : check_critical_vitals "spo2 80".toList = false := rfl
example : check_critical_vitals "oxygen saturation 80".toList = true := rfl
example : searchAge "the patient is 70 years old".toList = some 70 := rfl
example : searchAge "age is 83".toList = some 83 := rfl
example : searchAge "70/2/3".toList = none := rfl
example :
    (assess_esi_level ("", "") emptyCollection "patient is unresponsive").triage_level = 1 := rfl
example :
    (assess_esi_level ("", "") emptyCollection "patient reports chest pain").triage_level = 2 := rfl
example : (assess_esi_level ("", "") emptyCollection "fever").triage_level = 3 := rfl
example :
    (assess_esi_level ("", "") emptyCollection "here for a medication refill").triage_level = 4 := rfl
example : (assess_esi_level ("", "") emptyCollection "").triage_level = 5 := rfl
